import Mathlib

/-!
Verification of the poke-project frontend (a React "Pokedex" catalog browser).

The development shallowly embeds the components of the repository:

* `src/frontend/src/App.js`            — top-level composition, URL-parameter
  reading, shared page/offset state;
* `src/frontend/src/ui/Items.js`       — the paginated list component;
* `src/frontend/src/ui/FoundItems.js`  — the search-results component and the
  search form component bundled in the same file;
* the grid template component (`ItemsTPL`).

JavaScript template-literal interpolation of numbers is embedded by an
executable decimal renderer (`natToDecimal` / `intToDecimal`), `parseInt` by
`parseIntJS`, and `URLSearchParams` by an executable query-string splitter
(`getParamList` and friends), so that claims about the query parameters of
request URLs and of the address bar can be stated and decided.
-/

namespace PokeProject

/-! ### Decimal rendering of JS numbers and `parseInt` -/

/-- Numeric value of a decimal digit character. -/
def digitVal (c : Char) : Nat := c.toNat - 48

/-- Little-endian base-10 digits computed with explicit fuel, so that the
kernel can evaluate it on concrete inputs. -/
def natToDigitsRev (fuel n : Nat) : List Nat :=
  match fuel with
  | 0 => []
  | fuel + 1 => if n = 0 then [] else n % 10 :: natToDigitsRev fuel (n / 10)

/-- Little-endian base-10 digits of a natural number. -/
def natDigits (n : Nat) : List Nat := natToDigitsRev n n

theorem natToDigitsRev_eq (fuel : Nat) :
    ∀ n : Nat, n ≤ fuel → natToDigitsRev fuel n = Nat.digits 10 n := by
  induction fuel with
  | zero =>
    intro n hn
    have : n = 0 := Nat.le_zero.mp hn
    simp [natToDigitsRev, this]
  | succ fuel ih =>
    intro n hn
    by_cases h : n = 0
    · simp [natToDigitsRev, h]
    · have hpos : 0 < n := Nat.pos_of_ne_zero h
      have hdiv : n / 10 < n := Nat.div_lt_self hpos (by norm_num)
      rw [natToDigitsRev, if_neg h, Nat.digits_def' (by norm_num : (1 : Nat) < 10) hpos,
        ih (n / 10) (by omega)]

theorem natDigits_eq (n : Nat) : natDigits n = Nat.digits 10 n :=
  natToDigitsRev_eq n n (Nat.le_refl n)

/-- The decimal character list a JS template literal produces for a
natural number. -/
def natToDecimal (n : Nat) : List Char :=
  if n = 0 then ['0'] else ((natDigits n).map Nat.digitChar).reverse

/-- The decimal character list a JS template literal produces for an
integer. -/
def intToDecimalChars (i : Int) : List Char :=
  if i < 0 then '-' :: natToDecimal i.natAbs else natToDecimal i.natAbs

/-- The decimal string a JS template literal produces for an integer. -/
def intToDecimal (i : Int) : String := String.mk (intToDecimalChars i)

/-- Reads a digit list (most significant first) back into a number. -/
def parseDigits (l : List Char) : Nat :=
  l.foldl (fun a c => a * 10 + digitVal c) 0

theorem digitVal_digitChar {d : Nat} (h : d < 10) : digitVal (Nat.digitChar d) = d := by
  interval_cases d <;> rfl

theorem digitChar_isDigit {d : Nat} (h : d < 10) : (Nat.digitChar d).isDigit := by
  interval_cases d <;> decide

theorem natToDecimal_ne_nil (n : Nat) : natToDecimal n ≠ [] := by
  by_cases h : n = 0
  · simp [natToDecimal, h]
  · simp [natToDecimal, h, natDigits_eq, Nat.digits_ne_nil_iff_ne_zero]

theorem natToDecimal_isDigit {n : Nat} : ∀ c ∈ natToDecimal n, c.isDigit := by
  intro c hc
  by_cases h : n = 0
  · simp [natToDecimal, h] at hc
    subst hc; decide
  · simp [natToDecimal, h, natDigits_eq] at hc
    obtain ⟨d, hd, rfl⟩ := hc
    exact digitChar_isDigit (Nat.digits_lt_base (by norm_num) hd)

theorem parseDigits_aux (ds : List Nat) :
    (∀ d ∈ ds, d < 10) → ∀ a : Nat,
      List.foldl (fun acc c => acc * 10 + digitVal c) a ((ds.map Nat.digitChar).reverse)
        = a * 10 ^ ds.length + Nat.ofDigits 10 ds := by
  induction ds with
  | nil => intro _ a; simp
  | cons d ds ih =>
    intro h a
    have hd : d < 10 := h d (List.mem_cons_self d ds)
    have hds : ∀ x ∈ ds, x < 10 := fun x hx => h x (List.mem_cons_of_mem d hx)
    rw [List.map_cons, List.reverse_cons, List.foldl_append, ih hds a]
    simp [Nat.ofDigits_cons, digitVal_digitChar hd, pow_succ]
    ring

theorem parseDigits_natToDecimal (n : Nat) : parseDigits (natToDecimal n) = n := by
  by_cases h : n = 0
  · subst h; decide
  · rw [natToDecimal, if_neg h, natDigits_eq, parseDigits,
      parseDigits_aux (Nat.digits 10 n) (fun d hd => Nat.digits_lt_base (by norm_num) hd) 0,
      Nat.ofDigits_digits]
    simp

/-- A decimal digit is none of the characters that play a structural role
in the URLs and query strings of this repository. -/
theorem isDigit_ne {c : Char} (h : c.isDigit) :
    c ≠ ' ' ∧ c ≠ '-' ∧ c ≠ '+' ∧ c ≠ '&' ∧ c ≠ '=' ∧ c ≠ '?' := by
  refine ⟨?_, ?_, ?_, ?_, ?_, ?_⟩ <;>
    (intro hc; subst hc; exact absurd h (by decide))

/-- Embedding of JavaScript `parseInt` on the strings this repository feeds
it: optional sign, then the longest prefix of decimal digits; `none` stands
for `NaN`. -/
def parseIntJS (s : String) : Option Int :=
  match s.data.dropWhile (fun c => c == ' ') with
  | [] => none
  | c :: rest =>
    if c = '-' then
      (parseDigitsOpt rest).map (fun n => -(n : Int))
    else if c = '+' then
      (parseDigitsOpt rest).map (fun n => (n : Int))
    else
      (parseDigitsOpt (c :: rest)).map (fun n => (n : Int))
where
  parseDigitsOpt (l : List Char) : Option Nat :=
    let ds := l.takeWhile Char.isDigit
    if ds = [] then none else some (parseDigits ds)

theorem takeWhile_of_all {α : Type} (p : α → Bool) :
    ∀ l : List α, (∀ a ∈ l, p a = true) → l.takeWhile p = l := by
  intro l
  induction l with
  | nil => intro _; rfl
  | cons a l ih =>
    intro h
    simp [List.takeWhile_cons, h a (List.mem_cons_self a l),
      ih (fun x hx => h x (List.mem_cons_of_mem a hx))]

theorem parseDigitsOpt_all_digits (l : List Char) (hne : l ≠ [])
    (h : ∀ c ∈ l, c.isDigit) :
    parseIntJS.parseDigitsOpt l = some (parseDigits l) := by
  unfold parseIntJS.parseDigitsOpt
  rw [takeWhile_of_all Char.isDigit l h]
  simp [hne]

theorem parseIntJS_natToDecimal (n : Nat) :
    parseIntJS (String.mk (natToDecimal n)) = some ((n : Int)) := by
  obtain ⟨c, cs, hcs⟩ : ∃ c cs, natToDecimal n = c :: cs := by
    cases h : natToDecimal n with
    | nil => exact absurd h (natToDecimal_ne_nil n)
    | cons c cs => exact ⟨c, cs, rfl⟩
  have hall : ∀ x ∈ c :: cs, Char.isDigit x := by
    rw [← hcs]; exact natToDecimal_isDigit
  have hc : c.isDigit := hall c (List.mem_cons_self c cs)
  have hfacts := isDigit_ne hc
  have hdata : (String.mk (natToDecimal n)).data = c :: cs := by rw [hcs]
  unfold parseIntJS
  rw [hdata]
  have hdrop : ((c :: cs).dropWhile (fun x => x == ' ')) = c :: cs := by
    simp [List.dropWhile_cons, hfacts.1]
  rw [hdrop]
  simp only [hfacts.2.1, hfacts.2.2.1, if_false]
  rw [parseDigitsOpt_all_digits (c :: cs) (by simp) hall, ← hcs,
    parseDigits_natToDecimal]
  simp

theorem parseIntJS_intToDecimal (i : Int) : parseIntJS (intToDecimal i) = some i := by
  by_cases h : i < 0
  · have hchars : intToDecimalChars i = '-' :: natToDecimal i.natAbs := by
      rw [intToDecimalChars, if_pos h]
    obtain ⟨c, cs, hcs⟩ : ∃ c cs, natToDecimal i.natAbs = c :: cs := by
      cases hx : natToDecimal i.natAbs with
      | nil => exact absurd hx (natToDecimal_ne_nil _)
      | cons c cs => exact ⟨c, cs, rfl⟩
    have hall : ∀ x ∈ c :: cs, Char.isDigit x := by
      rw [← hcs]; exact natToDecimal_isDigit
    have hdata : (intToDecimal i).data = '-' :: natToDecimal i.natAbs := by
      rw [intToDecimal, hchars]
    unfold parseIntJS
    rw [hdata]
    have hdrop : (('-' :: natToDecimal i.natAbs).dropWhile (fun x => x == ' '))
        = '-' :: natToDecimal i.natAbs := by
      simp [List.dropWhile_cons]
    rw [hdrop]
    simp only [if_pos rfl]
    rw [parseDigitsOpt_all_digits _ (natToDecimal_ne_nil _) natToDecimal_isDigit,
      parseDigits_natToDecimal]
    simp [abs_of_neg h]
  · have hchars : intToDecimal i = String.mk (natToDecimal i.natAbs) := by
      rw [intToDecimal, intToDecimalChars, if_neg h]
    rw [hchars, parseIntJS_natToDecimal]
    congr 1
    omega

/-! ### Query strings: an executable embedding of `URLSearchParams` -/

/-- Splits a character list at every occurrence of `sep`. -/
def splitSep (sep : Char) : List Char → List (List Char)
  | [] => [[]]
  | c :: cs =>
    match splitSep sep cs with
    | [] => [[]]
    | g :: gs => if c = sep then [] :: g :: gs else (c :: g) :: gs

/-- Joins character lists, interleaving `sep`. -/
def joinSep (sep : Char) : List (List Char) → List Char
  | [] => []
  | [x] => x
  | x :: xs => x ++ sep :: joinSep sep xs

theorem splitSep_ne_nil (sep : Char) : ∀ l : List Char, splitSep sep l ≠ []
  | [] => by simp [splitSep]
  | c :: cs => by
    have h := splitSep_ne_nil sep cs
    unfold splitSep
    cases hx : splitSep sep cs with
    | nil => exact absurd hx h
    | cons g gs => by_cases hc : c = sep <;> simp [hc]

theorem splitSep_of_not_mem (sep : Char) :
    ∀ {l : List Char}, (∀ c ∈ l, c ≠ sep) → splitSep sep l = [l]
  | [], _ => rfl
  | c :: cs, h => by
    have ih := splitSep_of_not_mem sep (fun x hx => h x (List.mem_cons_of_mem c hx))
    simp [splitSep, ih, h c (List.mem_cons_self c cs)]

theorem splitSep_append (sep : Char) :
    ∀ (l r : List Char), (∀ c ∈ l, c ≠ sep) →
      splitSep sep (l ++ sep :: r) = l :: splitSep sep r
  | [], r, _ => by
    cases hx : splitSep sep r with
    | nil => exact absurd hx (splitSep_ne_nil sep r)
    | cons g gs => simp [splitSep, hx]
  | c :: l, r, h => by
    have ih := splitSep_append sep l r (fun x hx => h x (List.mem_cons_of_mem c hx))
    simp [splitSep, ih, h c (List.mem_cons_self c l)]

theorem joinSep_splitSep (sep : Char) :
    ∀ l : List Char, joinSep sep (splitSep sep l) = l
  | [] => rfl
  | c :: cs => by
    have ih := joinSep_splitSep sep cs
    unfold splitSep
    cases hx : splitSep sep cs with
    | nil => exact absurd hx (splitSep_ne_nil sep cs)
    | cons g gs =>
      rw [hx] at ih
      by_cases hc : c = sep
      · subst hc
        simp only [if_pos rfl]
        cases gs with
        | nil => simpa [joinSep] using ih
        | cons g2 gs2 => simpa [joinSep] using ih
      · simp only [if_neg hc]
        cases gs with
        | nil => simpa [joinSep] using ih
        | cons g2 gs2 =>
          have e1 : joinSep sep ((c :: g) :: g2 :: gs2)
              = (c :: g) ++ sep :: joinSep sep (g2 :: gs2) := rfl
          have e2 : joinSep sep (g :: g2 :: gs2)
              = g ++ sep :: joinSep sep (g2 :: gs2) := rfl
          rw [e2] at ih
          rw [e1, List.cons_append, ih]

/-- Value of a hexadecimal digit character, `none` on anything else. -/
def hexVal (c : Char) : Option Nat :=
  if 48 ≤ c.toNat ∧ c.toNat ≤ 57 then some (c.toNat - 48)
  else if 65 ≤ c.toNat ∧ c.toNat ≤ 70 then some (c.toNat - 55)
  else if 97 ≤ c.toNat ∧ c.toNat ≤ 102 then some (c.toNat - 87)
  else none

/-- The `application/x-www-form-urlencoded` decoding `URLSearchParams`
applies to parameter names and values: `+` becomes a space and `%hh` (two
hex digits) becomes the character with code `hh`; a malformed escape is
kept literally. The bytewise `%hh` rule coincides with `URLSearchParams`
on single-byte (ASCII) escapes; multi-byte UTF-8 escape sequences are not
reassembled, and every theorem below that concerns an arbitrary value
keeps `%` out of it, so no statement depends on that corner. -/
def formUrlDecodeAux (fuel : Nat) (chars : List Char) : List Char :=
  match fuel, chars with
  | 0, rest => rest
  | _, [] => []
  | fuel + 1, c :: rest =>
    if c = '+' then ' ' :: formUrlDecodeAux fuel rest
    else if c = '%' then
      match rest with
      | h :: l :: rest2 =>
        match hexVal h, hexVal l with
        | some hv, some lv => Char.ofNat (16 * hv + lv) :: formUrlDecodeAux fuel rest2
        | _, _ => '%' :: formUrlDecodeAux fuel rest
      | _ => '%' :: formUrlDecodeAux fuel rest
    else c :: formUrlDecodeAux fuel rest

/-- The decoding applied to a whole parameter name or value; the fuel is
the input length, which bounds the number of steps. -/
def formUrlDecode (l : List Char) : List Char := formUrlDecodeAux l.length l

theorem formUrlDecodeAux_clean :
    ∀ (fuel : Nat) (l : List Char), (∀ c ∈ l, c ≠ '%' ∧ c ≠ '+') →
      l.length ≤ fuel → formUrlDecodeAux fuel l = l := by
  intro fuel
  induction fuel with
  | zero => intro l _ _; cases l <;> rfl
  | succ fuel ih =>
    intro l h hlen
    cases l with
    | nil => rfl
    | cons c rest =>
      have hc := h c (List.mem_cons_self c rest)
      have hrest : ∀ x ∈ rest, x ≠ '%' ∧ x ≠ '+' :=
        fun x hx => h x (List.mem_cons_of_mem c hx)
      have hlen2 : rest.length ≤ fuel := by
        simp only [List.length_cons] at hlen
        omega
      have htail := ih rest hrest hlen2
      rcases rest with _ | ⟨c1, rest1⟩
      · rw [formUrlDecodeAux, if_neg hc.2, if_neg hc.1, htail]
        simp
      · rcases rest1 with _ | ⟨c2, rest2⟩
        · rw [formUrlDecodeAux, if_neg hc.2, if_neg hc.1, htail]
          simp
        · rw [formUrlDecodeAux, if_neg hc.2, if_neg hc.1, htail]

/-- On text containing neither `%` nor `+`, the form-urlencoded decoding
is the identity. -/
theorem formUrlDecode_clean (l : List Char) (h : ∀ c ∈ l, c ≠ '%' ∧ c ≠ '+') :
    formUrlDecode l = l :=
  formUrlDecodeAux_clean l.length l h (Nat.le_refl _)

/-- Splits one `key=value` segment at its first `=`; everything after the
first `=` (including further `=` characters) is the value, as in
`URLSearchParams`. -/
def splitKV (part : List Char) : List Char × List Char :=
  match splitSep '=' part with
  | [] => ([], [])
  | k :: vs => (k, joinSep '=' vs)

theorem splitKV_pair (k v : List Char) (hk : ∀ c ∈ k, c ≠ '=') :
    splitKV (k ++ '=' :: v) = (k, v) := by
  unfold splitKV
  rw [splitSep_append '=' k v hk]
  cases hx : splitSep '=' v with
  | nil => exact absurd hx (splitSep_ne_nil '=' v)
  | cons g gs =>
    have hj : joinSep '=' (g :: gs) = v := by
      rw [← hx]; exact joinSep_splitSep '=' v
    simp [hj]

/-- Looks a key up in a query string, as `URLSearchParams.get` does:
split on `&`, drop empty segments, split each segment at its first `=`,
apply the form-urlencoded decoding to every name and value, and return
the decoded value of the first segment whose decoded name matches. -/
def getParamList (q key : List Char) : Option (List Char) :=
  (((((splitSep '&' q).filter (fun part => !part.isEmpty)).map splitKV).map
        (fun p => (formUrlDecode p.1, formUrlDecode p.2))).find?
      (fun p => p.1 == key)).map Prod.snd

/-- The part of a URL the browser actually puts on the wire: everything
before the first `#`, since the fragment is never sent. -/
def wireChars (url : List Char) : List Char :=
  url.takeWhile (fun c => !(c == '#'))

/-- The path part of a URL as sent: everything before the first `?` of
the wire URL. -/
def urlPathChars (url : List Char) : List Char :=
  (wireChars url).takeWhile (fun c => !(c == '?'))

/-- The query part of a URL as sent: everything after the first `?` of
the wire URL — a `#` cuts the query short because the fragment is never
sent. -/
def urlQueryChars (url : List Char) : List Char :=
  match (wireChars url).dropWhile (fun c => !(c == '?')) with
  | [] => []
  | _ :: r => r

/-- The path part of a URL, as a string. -/
def urlPathString (url : String) : String := String.mk (urlPathChars url.data)

/-- The value of a query parameter of a URL, as a string. -/
def getUrlParam (url key : String) : Option String :=
  (getParamList (urlQueryChars url.data) key.data).map String.mk

/-- Embedding of `new URLSearchParams(search).get(key)`, where `search` is
`window.location.search` (possibly starting with `?`). -/
def searchParamsGet (search key : String) : Option String :=
  (getParamList
      (match search.data with
       | '?' :: r => r
       | l => l)
      key.data).map String.mk

theorem takeWhile_append_stop (p : Char → Bool) :
    ∀ (l : List Char) (c₀ : Char) (r : List Char),
      (∀ c ∈ l, p c = true) → p c₀ = false →
        (l ++ c₀ :: r).takeWhile p = l := by
  intro l
  induction l with
  | nil => intro c₀ r _ hc; simp [List.takeWhile_cons, hc]
  | cons a l ih =>
    intro c₀ r h hc
    simp [List.takeWhile_cons, h a (List.mem_cons_self a l),
      ih c₀ r (fun x hx => h x (List.mem_cons_of_mem a hx)) hc]

theorem dropWhile_append_stop (p : Char → Bool) :
    ∀ (l : List Char) (c₀ : Char) (r : List Char),
      (∀ c ∈ l, p c = true) → p c₀ = false →
        (l ++ c₀ :: r).dropWhile p = c₀ :: r := by
  intro l
  induction l with
  | nil => intro c₀ r _ hc; simp [List.dropWhile_cons, hc]
  | cons a l ih =>
    intro c₀ r h hc
    simp [List.dropWhile_cons, h a (List.mem_cons_self a l),
      ih c₀ r (fun x hx => h x (List.mem_cons_of_mem a hx)) hc]

theorem not_isEmpty_append_cons (l : List Char) (c : Char) (r : List Char) :
    (l ++ c :: r).isEmpty = false := by
  cases l <;> rfl

theorem intToDecimalChars_facts (i : Int) :
    ∀ c ∈ intToDecimalChars i, c ≠ '&' ∧ c ≠ '=' ∧ c ≠ '?' := by
  intro c hc
  unfold intToDecimalChars at hc
  by_cases h : i < 0
  · rw [if_pos h] at hc
    rcases List.mem_cons.mp hc with rfl | hc2
    · exact ⟨by decide, by decide, by decide⟩
    · have hf := isDigit_ne (natToDecimal_isDigit c hc2)
      exact ⟨hf.2.2.2.1, hf.2.2.2.2.1, hf.2.2.2.2.2⟩
  · rw [if_neg h] at hc
    have hf := isDigit_ne (natToDecimal_isDigit c hc)
    exact ⟨hf.2.2.2.1, hf.2.2.2.2.1, hf.2.2.2.2.2⟩

/-- A decimal digit is also none of the fragment delimiter and the two
characters the form-urlencoded decoding rewrites. -/
theorem isDigit_ne_frag {c : Char} (h : c.isDigit) :
    c ≠ '#' ∧ c ≠ '%' ∧ c ≠ '+' := by
  refine ⟨?_, ?_, ?_⟩ <;>
    (intro hc; subst hc; exact absurd h (by decide))

theorem intToDecimalChars_facts2 (i : Int) :
    ∀ c ∈ intToDecimalChars i, c ≠ '#' ∧ c ≠ '%' ∧ c ≠ '+' := by
  intro c hc
  unfold intToDecimalChars at hc
  by_cases h : i < 0
  · rw [if_pos h] at hc
    rcases List.mem_cons.mp hc with rfl | hc2
    · exact ⟨by decide, by decide, by decide⟩
    · exact isDigit_ne_frag (natToDecimal_isDigit c hc2)
  · rw [if_neg h] at hc
    exact isDigit_ne_frag (natToDecimal_isDigit c hc)

theorem query_two_kv (K1 V1 K2 V2 : List Char)
    (hK1 : ∀ c ∈ K1, c ≠ '&' ∧ c ≠ '=') (hV1 : ∀ c ∈ V1, c ≠ '&')
    (hK2 : ∀ c ∈ K2, c ≠ '&' ∧ c ≠ '=') (hV2 : ∀ c ∈ V2, c ≠ '&') :
    (((splitSep '&' (K1 ++ '=' :: (V1 ++ '&' :: (K2 ++ '=' :: V2)))).filter
        (fun part => !part.isEmpty)).map splitKV) = [(K1, V1), (K2, V2)] := by
  have hshape : K1 ++ '=' :: (V1 ++ '&' :: (K2 ++ '=' :: V2))
      = (K1 ++ '=' :: V1) ++ '&' :: (K2 ++ '=' :: V2) := by
    simp
  have hA : ∀ c ∈ K1 ++ '=' :: V1, c ≠ '&' := by
    intro c hc
    rcases List.mem_append.mp hc with hc1 | hc2
    · exact (hK1 c hc1).1
    · rcases List.mem_cons.mp hc2 with rfl | hc3
      · decide
      · exact hV1 c hc3
  have hB : ∀ c ∈ K2 ++ '=' :: V2, c ≠ '&' := by
    intro c hc
    rcases List.mem_append.mp hc with hc1 | hc2
    · exact (hK2 c hc1).1
    · rcases List.mem_cons.mp hc2 with rfl | hc3
      · decide
      · exact hV2 c hc3
  rw [hshape, splitSep_append '&' _ _ hA, splitSep_of_not_mem '&' hB]
  rw [List.filter_cons, List.filter_cons]
  simp only [not_isEmpty_append_cons, Bool.not_false, if_pos]
  rw [List.filter_nil, List.map_cons, List.map_cons, List.map_nil,
    splitKV_pair K1 V1 (fun c hc => (hK1 c hc).2),
    splitKV_pair K2 V2 (fun c hc => (hK2 c hc).2)]

theorem query_three_kv (K1 V1 K2 V2 K3 V3 : List Char)
    (hK1 : ∀ c ∈ K1, c ≠ '&' ∧ c ≠ '=') (hV1 : ∀ c ∈ V1, c ≠ '&')
    (hK2 : ∀ c ∈ K2, c ≠ '&' ∧ c ≠ '=') (hV2 : ∀ c ∈ V2, c ≠ '&')
    (hK3 : ∀ c ∈ K3, c ≠ '&' ∧ c ≠ '=') (hV3 : ∀ c ∈ V3, c ≠ '&') :
    (((splitSep '&'
          (K1 ++ '=' :: (V1 ++ '&' :: (K2 ++ '=' :: (V2 ++ '&' :: (K3 ++ '=' :: V3)))))).filter
        (fun part => !part.isEmpty)).map splitKV) = [(K1, V1), (K2, V2), (K3, V3)] := by
  have hshape : K1 ++ '=' :: (V1 ++ '&' :: (K2 ++ '=' :: (V2 ++ '&' :: (K3 ++ '=' :: V3))))
      = (K1 ++ '=' :: V1) ++ '&' :: ((K2 ++ '=' :: V2) ++ '&' :: (K3 ++ '=' :: V3)) := by
    simp
  have hA : ∀ c ∈ K1 ++ '=' :: V1, c ≠ '&' := by
    intro c hc
    rcases List.mem_append.mp hc with hc1 | hc2
    · exact (hK1 c hc1).1
    · rcases List.mem_cons.mp hc2 with rfl | hc3
      · decide
      · exact hV1 c hc3
  have hA2 : ∀ c ∈ K2 ++ '=' :: V2, c ≠ '&' := by
    intro c hc
    rcases List.mem_append.mp hc with hc1 | hc2
    · exact (hK2 c hc1).1
    · rcases List.mem_cons.mp hc2 with rfl | hc3
      · decide
      · exact hV2 c hc3
  have hB : ∀ c ∈ K3 ++ '=' :: V3, c ≠ '&' := by
    intro c hc
    rcases List.mem_append.mp hc with hc1 | hc2
    · exact (hK3 c hc1).1
    · rcases List.mem_cons.mp hc2 with rfl | hc3
      · decide
      · exact hV3 c hc3
  rw [hshape, splitSep_append '&' _ _ hA, splitSep_append '&' _ _ hA2,
    splitSep_of_not_mem '&' hB]
  rw [List.filter_cons, List.filter_cons, List.filter_cons]
  simp only [not_isEmpty_append_cons, Bool.not_false, if_pos]
  rw [List.filter_nil, List.map_cons, List.map_cons, List.map_cons, List.map_nil,
    splitKV_pair K1 V1 (fun c hc => (hK1 c hc).2),
    splitKV_pair K2 V2 (fun c hc => (hK2 c hc).2),
    splitKV_pair K3 V3 (fun c hc => (hK3 c hc).2)]

theorem takeWhile_append_all (p : Char → Bool) :
    ∀ (l r : List Char), (∀ c ∈ l, p c = true) →
      (l ++ r).takeWhile p = l ++ r.takeWhile p := by
  intro l
  induction l with
  | nil => intro r _; rfl
  | cons a l ih =>
    intro r h
    simp [List.takeWhile_cons, h a (List.mem_cons_self a l),
      ih r (fun x hx => h x (List.mem_cons_of_mem a hx))]

theorem urlPathChars_append (P Q : List Char) (hP : ∀ c ∈ P, c ≠ '?' ∧ c ≠ '#') :
    urlPathChars (P ++ '?' :: Q) = P := by
  unfold urlPathChars wireChars
  rw [takeWhile_append_all _ P ('?' :: Q) (fun c hc => by simp [(hP c hc).2])]
  have hq : ('?' :: Q).takeWhile (fun c => !(c == '#'))
      = '?' :: Q.takeWhile (fun c => !(c == '#')) := by
    simp [List.takeWhile_cons]
  rw [hq]
  exact takeWhile_append_stop _ P '?' _
    (fun c hc => by simp [(hP c hc).1]) (by decide)

theorem urlQueryChars_append (P Q : List Char)
    (hP : ∀ c ∈ P, c ≠ '?' ∧ c ≠ '#') (hQ : ∀ c ∈ Q, c ≠ '#') :
    urlQueryChars (P ++ '?' :: Q) = Q := by
  unfold urlQueryChars wireChars
  have hw : (P ++ '?' :: Q).takeWhile (fun c => !(c == '#')) = P ++ '?' :: Q := by
    apply takeWhile_of_all
    intro c hc
    rcases List.mem_append.mp hc with h1 | h2
    · simp [(hP c h1).2]
    · rcases List.mem_cons.mp h2 with rfl | h3
      · decide
      · simp [hQ c h3]
  rw [hw, dropWhile_append_stop _ P '?' Q (fun c hc => by simp [(hP c hc).1]) (by decide)]

/-! ### Data model

The API payloads the components pass around, and the pieces of browser
state they mutate (`window.history.replaceState` target URL and
`document.title`). -/

/-- The sprites object of one catalog item; `front_default` is `none` when
the JSON field is `null` or absent (`undefined`). -/
structure Sprites where
  front_default : Option String
  deriving DecidableEq, Repr

/-- One catalog item as returned by the API. -/
structure Pokemon where
  name : String
  sprites : Sprites
  deriving DecidableEq, Repr

/-- The `data` payload of a list or search response: a total `count` and
the page of results. -/
structure RespData where
  count : Nat
  results : List Pokemon
  deriving DecidableEq, Repr

/-- An axios response object (only the `data` field is used). -/
structure Response where
  data : RespData
  deriving DecidableEq, Repr

/-- An error object as exposed by the data-fetching library. -/
structure ErrObj where
  message : String
  deriving DecidableEq, Repr

/-- The browser state the components write: address-bar URL (via
`window.history.replaceState`) and `document.title`. -/
structure Browser where
  url : String
  title : String
  deriving DecidableEq, Repr

/-- The page/offset pair kept in component state
(`currentPage` / `currentOffset`). -/
structure PageState where
  currentPage : Int
  currentOffset : Int
  deriving DecidableEq, Repr

/-- Configuration passed to `useQuery` by the components. -/
structure QueryOptions where
  retry : Bool
  enabled : Bool
  deriving DecidableEq, Repr

/-- The offset invariant the spec states: `offset = (page - 1) × pageSize`. -/
def offsetInvariant (pageSize : Int) (s : PageState) : Prop :=
  s.currentOffset = (s.currentPage - 1) * pageSize

/-- The nodes the components render; only the parts of the markup the
claims are about are distinguished. -/
inductive RenderNode where
  | text : String → RenderNode
  | card : (name : String) → (imgSrc : String) → (imgAlt : String) → RenderNode
  | pagination : (currentPage : Int) → (totalPages : Nat) → RenderNode
  | searchFormUI : RenderNode
  deriving DecidableEq, Repr

/-- `true` exactly on card nodes. -/
def isCardNode : RenderNode → Bool
  | RenderNode.card _ _ _ => true
  | _ => false

/-- The image source of a card node. -/
def cardSrc : RenderNode → Option String
  | RenderNode.card _ src _ => some src
  | _ => none

/-- The displayed name of a card node. -/
def cardName : RenderNode → Option String
  | RenderNode.card n _ _ => some n
  | _ => none

/-- Renders an optional string the way a JS template literal renders a
possibly-null variable: `null` prints as the text `null`. -/
def jsTemplateOpt : Option String → String
  | none => "null"
  | some s => s

/-- Embedding of `String.prototype.toLowerCase` on the strings this
repository feeds it, written characterwise so that concrete instances
evaluate in the kernel. -/
def jsToLowerCase (s : String) : String := String.mk (s.data.map Char.toLower)

/-- Embedding of `Math.ceil(count / per)` on non-negative integers. -/
def mathCeilDiv (count per : Nat) : Nat := (count + per - 1) / per

/-! ### `src/frontend/src/ui/Items.js` — the paginated list component -/

namespace Items

/-- `const itemsPerPage = 18` (Items.js line 10). -/
def itemsPerPage : Nat := 18

/-- Initial component state (Items.js lines 11-16):
`currentPage = !openedPage ? 1 : parseInt(openedPage)`,
`currentOffset = !openedPage ? 0 : parseInt(openedPage) * itemsPerPage - itemsPerPage`.
A falsy `openedPage` (`null` or the empty string) selects page 1 / offset 0;
`none` is returned when `parseInt` yields `NaN`. -/
def initialState (openedPage : Option String) : Option PageState :=
  match openedPage with
  | none => some { currentPage := 1, currentOffset := 0 }
  | some s =>
    if s = "" then some { currentPage := 1, currentOffset := 0 }
    else
      (parseIntJS s).map fun n =>
        { currentPage := n,
          currentOffset := n * (itemsPerPage : Int) - (itemsPerPage : Int) }

/-- The list-request URL (Items.js lines 26-28):
`/api/pokemon-detailed/?offset=${currentOffset}&limit=${itemsPerPage}`. -/
def requestChars (currentOffset : Int) : List Char :=
  "/api/pokemon-detailed/?offset=".data ++ intToDecimalChars currentOffset
    ++ "&limit=".data ++ natToDecimal itemsPerPage

/-- The list-request URL as a string. -/
def requestUrl (currentOffset : Int) : String := String.mk (requestChars currentOffset)

/-- The options passed to `useQuery` (Items.js line 29): `{ retry: false }`;
`enabled` keeps the library default `true`. -/
def queryOptions : QueryOptions := { retry := false, enabled := true }

/-- `onPageChange` (Items.js lines 31-44): stores the new page, rewrites the
address bar to `/?page=${page}`, sets the document title to
`Pokedex | Page ${page}` and stores `page * itemsPerPage - itemsPerPage`
as the offset. -/
def onPageChange (page : Int) : PageState × Browser :=
  ({ currentPage := page,
     currentOffset := page * (itemsPerPage : Int) - (itemsPerPage : Int) },
   { url := "/?page=" ++ intToDecimal page,
     title := "Pokedex | Page " ++ intToDecimal page })

/-- `totalPages = Math.ceil(itemCount / itemsPerPage)` (Items.js line 50). -/
def totalPages (itemCount : Nat) : Nat := mathCeilDiv itemCount itemsPerPage

/-- The reset performed on every render with `currentPage === 1`
(Items.js lines 53-56): the URL is replaced by `/` and the title by
`Pokedex`; any other page leaves the browser state alone. -/
def pageOneEffect (currentPage : Int) (b : Browser) : Browser :=
  if currentPage = 1 then { url := "/", title := "Pokedex" } else b

/-- One card of the grid (Items.js lines 64-82): the image source is
`pokemon.sprites.front_default ?? "/api/media/?l=empty-url.jpg"`. The alt
text `pokemon.name ?? "empty"` collapses to `pokemon.name` because `name`
is a mandatory string in the payload model. -/
def mkCard (p : Pokemon) : RenderNode :=
  RenderNode.card p.name
    (p.sprites.front_default.getD "/api/media/?l=empty-url.jpg") p.name

/-- The rendered output (Items.js lines 58-94) as a function of the request
state: the loading indicator while `isLoading`, the error message when
`error` is set, one card per result when a response is present, and the
pagination bar when `itemCount` is truthy. -/
def render (isLoading : Bool) (error : Option ErrObj) (response : Option Response)
    (currentPage : Int) : List RenderNode :=
  (if isLoading then [RenderNode.text "Fetching data..."] else [])
    ++ (match error with
        | some e => [RenderNode.text e.message]
        | none => [])
    ++ (match response with
        | some r => r.data.results.map mkCard
        | none => [])
    ++ (match response with
        | some r =>
          if r.data.count ≠ 0 then
            [RenderNode.pagination currentPage (totalPages r.data.count)]
          else []
        | none => [])

end Items

/-! ### The grid template component (`ItemsTPL`) -/

namespace ItemsTPL

/-- The pagination props handed to the `Pagination` widget. -/
structure PaginationData where
  currentPage : Int
  totalPages : Nat
  deriving DecidableEq, Repr

/-- One card of the grid: identical markup to the card in `Items.js`,
including the `?? "/api/media/?l=empty-url.jpg"` image fallback. -/
def mkCard (p : Pokemon) : RenderNode :=
  RenderNode.card p.name
    (p.sprites.front_default.getD "/api/media/?l=empty-url.jpg") p.name

/-- The rendered output of the template component: loading indicator,
error message, one card per result, pagination when `itemCount` is
truthy. -/
def render (isLoading : Bool) (error : Option ErrObj) (response : Option Response)
    (itemCount : Option Nat) (pd : PaginationData) : List RenderNode :=
  (if isLoading then [RenderNode.text "Fetching data..."] else [])
    ++ (match error with
        | some e => [RenderNode.text e.message]
        | none => [])
    ++ (match response with
        | some r => r.data.results.map mkCard
        | none => [])
    ++ (match itemCount with
        | some n =>
          if n ≠ 0 then [RenderNode.pagination pd.currentPage pd.totalPages] else []
        | none => [])

end ItemsTPL

/-! ### `src/frontend/src/ui/FoundItems.js` — the search-results component -/

namespace FoundItems

/-- `onPageChange` (FoundItems.js lines 16-26): stores the new page,
rewrites the address bar to `/?search=${searchQuery}&page=${page}`
(a `null` query prints as the text `null`), sets the document title and
stores `page * itemsPerPage - itemsPerPage` as the offset. -/
def onPageChange (searchQuery : Option String) (itemsPerPage : Nat) (page : Int) :
    PageState × Browser :=
  ({ currentPage := page,
     currentOffset := page * (itemsPerPage : Int) - (itemsPerPage : Int) },
   { url := "/?search=" ++ jsTemplateOpt searchQuery ++ "&page=" ++ intToDecimal page,
     title := "Pokedex | Page " ++ intToDecimal page })

/-- The component body (FoundItems.js lines 11-48): `isLoading = false`,
`error = false`, `response = searchData`, `itemCount = searchData.data.count`,
`totalPages = Math.ceil(itemCount / itemsPerPage)`, all forwarded to the
grid template. -/
def render (searchData : Response) (itemsPerPage : Nat) (currentPage : Int) :
    List RenderNode :=
  ItemsTPL.render false none (some searchData) (some searchData.data.count)
    { currentPage := currentPage,
      totalPages := mathCeilDiv searchData.data.count itemsPerPage }

end FoundItems

/-! ### The search form component (bundled in `FoundItems.js`) -/

namespace SearchForm

/-- The component state: the text field (`input`) and the submitted query
(`query`); `none` is JS `null`. -/
structure State where
  input : Option String
  query : Option String
  deriving DecidableEq, Repr

/-- `enabled: Boolean(query)`: `null` and the empty string are falsy. -/
def queryEnabled : Option String → Bool
  | none => false
  | some s => !(s == "")

/-- The options passed to `useQuery`: `{ retry: false, enabled: Boolean(query) }`. -/
def queryOptions (query : Option String) : QueryOptions :=
  { retry := false, enabled := queryEnabled query }

/-- The search-request URL:
`/api/search/pokemon/?q=${query}&offset=${currentOffset}&limit=${itemsPerPage}`. -/
def requestChars (query : String) (currentOffset : Int) (itemsPerPage : Nat) : List Char :=
  "/api/search/pokemon/?q=".data ++ query.data ++ "&offset=".data
    ++ intToDecimalChars currentOffset ++ "&limit=".data ++ natToDecimal itemsPerPage

/-- The search-request URL as a string. -/
def requestUrl (query : String) (currentOffset : Int) (itemsPerPage : Nat) : String :=
  String.mk (requestChars query currentOffset itemsPerPage)

/-- `handleSearchClick`: with a truthy input, lowercase it and store it as
the query unless it already equals the stored query; with a falsy input,
reset the query to `null`. -/
def handleSearchClick (s : State) : State :=
  match s.input with
  | some v =>
    if v ≠ "" then
      if s.query ≠ some (jsToLowerCase v) then { s with query := some (jsToLowerCase v) }
      else s
    else { s with query := none }
  | none => { s with query := none }

/-- The rendered markup of the search form: static JSX that references
none of `isLoading`, `error`, `response`, so the output is the same
constant node for every request state. -/
def render (isLoading : Bool) (error : Option ErrObj) (response : Option Response) :
    List RenderNode :=
  [RenderNode.searchFormUI]

/-- The `useEffect` body: on a settled successful response,
`setFoundData(response)`; when there is no response object (initial state
or a failed request), `setFoundData(null)`; otherwise the stored value is
kept. -/
def effectFoundData (isLoading : Bool) (error : Option ErrObj)
    (response : Option Response) (prev : Option Response) : Option Response :=
  if isLoading = false ∧ error = none ∧ response ≠ none then response
  else if response = none then none
  else prev

end SearchForm

/-! ### `src/frontend/src/App.js` — composition and URL-parameter reading -/

namespace App

/-- `const itemsPerPage = 18` (App.js line 19). -/
def itemsPerPage : Nat := 18

/-- The state App derives on load. -/
structure InitState where
  openedPage : Option String
  openedQuery : Option String
  currentPage : Option Int
  currentOffset : Option Int
  deriving DecidableEq, Repr

/-- `urlParams.get("page") ? urlParams.get("page") : null`: an absent
parameter is `null` and an empty string is falsy, hence also `null`. -/
def jsTruthyStr : Option String → Option String
  | some s => if s = "" then none else some s
  | none => none

/-- App.js lines 13-25: read `page` and `search` from
`window.location.search`; `currentPage = !openedPage ? 1 : parseInt(openedPage)`
and `currentOffset = !openedPage ? 0 : parseInt(openedPage) * itemsPerPage -
itemsPerPage`; `none` in a numeric field stands for `NaN`. -/
def init (locationSearch : String) : InitState :=
  let openedPage := jsTruthyStr (searchParamsGet locationSearch "page")
  let openedQuery := jsTruthyStr (searchParamsGet locationSearch "search")
  { openedPage := openedPage
    openedQuery := openedQuery
    currentPage :=
      match openedPage with
      | none => some 1
      | some s => parseIntJS s
    currentOffset :=
      match openedPage with
      | none => some 0
      | some s =>
        (parseIntJS s).map fun n => n * (itemsPerPage : Int) - (itemsPerPage : Int) }

/-- The props App sets on the `Items` element (App.js lines 72-78):
`itemsPerPage`, `currentOffset`, `currentPage` and the two setters. The
JSX sets no `openedPage` attribute, so inside `Items` that prop is
`undefined` (`none`). -/
structure ItemsProps where
  itemsPerPage : Nat
  currentOffset : Option Int
  currentPage : Option Int
  openedPage : Option String
  deriving DecidableEq, Repr

/-- Builds the props of the `Items` element from App state. -/
def itemsProps (a : InitState) : ItemsProps :=
  { itemsPerPage := itemsPerPage
    currentOffset := a.currentOffset
    currentPage := a.currentPage
    openedPage := none }

/-- The URL of the first list request after opening the app at
`locationSearch`: `Items` initialises its own state from its `openedPage`
prop and requests `/api/pokemon-detailed/` at its own `currentOffset`. -/
def firstListRequest (locationSearch : String) : Option String :=
  (Items.initialState (itemsProps (init locationSearch)).openedPage).map
    fun st => Items.requestUrl st.currentOffset

/-- The three-way branch of the results area (App.js lines 53-79):
`foundData ? (count === 0 ? "Nothing was found" : <FoundItems/>) : <Items/>`. -/
def resultNodes (foundData : Option Response) (itemsLoading : Bool)
    (itemsError : Option ErrObj) (itemsResponse : Option Response)
    (itemsPage : Int) (currentPage : Int) : List RenderNode :=
  match foundData with
  | some fd =>
    if fd.data.count = 0 then [RenderNode.text "Nothing was found"]
    else FoundItems.render fd itemsPerPage currentPage
  | none => Items.render itemsLoading itemsError itemsResponse itemsPage

/-- Everything App renders that the claims are about: the search form
followed by the results area. -/
def render (searchLoading : Bool) (searchError : Option ErrObj)
    (searchResponse : Option Response) (foundData : Option Response)
    (itemsLoading : Bool) (itemsError : Option ErrObj)
    (itemsResponse : Option Response) (itemsPage currentPage : Int) :
    List RenderNode :=
  SearchForm.render searchLoading searchError searchResponse ++
    resultNodes foundData itemsLoading itemsError itemsResponse itemsPage currentPage

end App

/-! ### Concrete sample data used by witnesses and counterexamples -/

/-- A concrete request failure. -/
def sampleErr : ErrObj := { message := "Network Error" }

/-- A concrete catalog item with a sprite URL. -/
def samplePokemon : Pokemon :=
  { name := "bulbasaur", sprites := { front_default := some "https://img.example/1.png" } }

/-- A concrete catalog item whose sprite field is null. -/
def samplePokemonNoSprite : Pokemon :=
  { name := "missingno", sprites := { front_default := none } }

/-- A concrete one-item response. -/
def sampleResp : Response := { data := { count := 1, results := [samplePokemon] } }

/-! ### Claim C1 — the offset/page invariant -/

/-- C1: changing to page N in the paginated-list view
(`Items.onPageChange`) and in the search-results view
(`FoundItems.onPageChange`) stores the offset `(N - 1) * 18` and rewrites
the address bar; together with the component initialisation this keeps the
invariant `offset = (page - 1) * 18` after every operation. -/
theorem c1_offset_invariant :
    (∀ (p : Option String) (st : PageState),
        Items.initialState p = some st → offsetInvariant 18 st) ∧
    (∀ N : Int,
        (Items.onPageChange N).1.currentOffset = (N - 1) * 18 ∧
        (Items.onPageChange N).2.url = "/?page=" ++ intToDecimal N ∧
        offsetInvariant 18 (Items.onPageChange N).1) ∧
    (∀ (q : Option String) (N : Int),
        (FoundItems.onPageChange q 18 N).1.currentOffset = (N - 1) * 18 ∧
        (FoundItems.onPageChange q 18 N).2.url
          = "/?search=" ++ jsTemplateOpt q ++ "&page=" ++ intToDecimal N ∧
        offsetInvariant 18 (FoundItems.onPageChange q 18 N).1) := by
  refine ⟨?_, ?_, ?_⟩
  · intro p st h
    rcases p with _ | s
    · simp only [Items.initialState, Option.some.injEq] at h
      rw [← h]
      simp [offsetInvariant]
    · by_cases hs : s = ""
      · simp only [Items.initialState, hs, if_pos, Option.some.injEq] at h
        rw [← h]
        simp [offsetInvariant]
      · have hself : Items.initialState (some s)
            = (parseIntJS s).map fun n =>
                ({ currentPage := n,
                   currentOffset := n * (Items.itemsPerPage : Int) - (Items.itemsPerPage : Int) } :
                  PageState) := by
          simp [Items.initialState, hs]
        rw [hself] at h
        cases hp : parseIntJS s with
        | none => rw [hp] at h; simp at h
        | some n =>
          rw [hp, Option.map_some'] at h
          have hst := Option.some.inj h
          rw [← hst]
          simp [offsetInvariant, Items.itemsPerPage]
          ring
  · intro N
    refine ⟨?_, rfl, ?_⟩ <;>
      simp [Items.onPageChange, Items.itemsPerPage, offsetInvariant] <;> ring
  · intro q N
    refine ⟨?_, rfl, ?_⟩ <;>
      simp [FoundItems.onPageChange, offsetInvariant] <;> ring

/-- C1 witness: the theorem evaluated at page parameter "3" (initial
state page 3, offset 36) and at concrete page changes. -/
theorem c1_offset_invariant_witness :
    offsetInvariant 18 { currentPage := 3, currentOffset := 36 } ∧
    (Items.onPageChange 2).1.currentOffset = (2 - 1) * 18 ∧
    (FoundItems.onPageChange (some "pika") 18 4).1.currentOffset = (4 - 1) * 18 :=
  ⟨c1_offset_invariant.1 (some "3") { currentPage := 3, currentOffset := 36 } (by decide),
   (c1_offset_invariant.2.1 2).1,
   (c1_offset_invariant.2.2 (some "pika") 4).1⟩

/-! ### Claim C4 — the list-request URL -/

/-- C4: every list-page request is a GET to `/api/pokemon-detailed/`
whose `offset` query parameter is the component's current offset (its
decimal rendering, which parses back to the same integer) and whose
`limit` query parameter is `18`. -/
theorem c4_list_request (off : Int) :
    urlPathString (Items.requestUrl off) = "/api/pokemon-detailed/" ∧
    getUrlParam (Items.requestUrl off) "offset" = some (intToDecimal off) ∧
    getUrlParam (Items.requestUrl off) "limit" = some "18" ∧
    parseIntJS (intToDecimal off) = some off := by
  have hdata : (Items.requestUrl off).data
      = "/api/pokemon-detailed/".data ++ '?' ::
          ("offset".data ++ '=' ::
            (intToDecimalChars off ++ '&' :: ("limit".data ++ '=' :: "18".data))) := by
    show Items.requestChars off = _
    unfold Items.requestChars
    have e1 : "/api/pokemon-detailed/?offset=".data
        = "/api/pokemon-detailed/".data ++ '?' :: ("offset".data ++ ['=']) := by decide
    have e2 : "&limit=".data = '&' :: ("limit".data ++ ['=']) := by decide
    have e3 : natToDecimal Items.itemsPerPage = "18".data := by decide
    rw [e1, e2, e3]
    simp
  have hP : ∀ c ∈ "/api/pokemon-detailed/".data, c ≠ '?' ∧ c ≠ '#' := by decide
  have hD : ∀ c ∈ intToDecimalChars off, c ≠ '&' :=
    fun c hc => (intToDecimalChars_facts off c hc).1
  have hQ4 : ∀ c ∈ ("offset".data ++ '=' ::
      (intToDecimalChars off ++ '&' :: ("limit".data ++ '=' :: "18".data))), c ≠ '#' := by
    intro c hc
    rcases List.mem_append.mp hc with h1 | h2
    · exact (by decide : ∀ x ∈ "offset".data, x ≠ '#') c h1
    · rcases List.mem_cons.mp h2 with rfl | h3
      · decide
      · rcases List.mem_append.mp h3 with h4 | h5
        · exact (intToDecimalChars_facts2 off c h4).1
        · rcases List.mem_cons.mp h5 with rfl | h6
          · decide
          · exact (by decide : ∀ x ∈ "limit".data ++ '=' :: "18".data, x ≠ '#') c h6
  have hq : urlQueryChars (Items.requestUrl off).data
      = "offset".data ++ '=' ::
          (intToDecimalChars off ++ '&' :: ("limit".data ++ '=' :: "18".data)) := by
    rw [hdata]
    exact urlQueryChars_append _ _ hP hQ4
  have hkv := query_two_kv "offset".data (intToDecimalChars off) "limit".data "18".data
    (by decide) hD (by decide) (by decide)
  have hdecK1 : formUrlDecode "offset".data = "offset".data := by decide
  have hdecK2 : formUrlDecode "limit".data = "limit".data := by decide
  have hdecV2 : formUrlDecode "18".data = "18".data := by decide
  have hdecD : formUrlDecode (intToDecimalChars off) = intToDecimalChars off :=
    formUrlDecode_clean _ (fun c hc =>
      ⟨(intToDecimalChars_facts2 off c hc).2.1, (intToDecimalChars_facts2 off c hc).2.2⟩)
  refine ⟨?_, ?_, ?_, parseIntJS_intToDecimal off⟩
  · unfold urlPathString
    rw [hdata, urlPathChars_append _ _ hP]
  · unfold getUrlParam getParamList
    rw [hq, hkv]
    simp only [List.map_cons, List.map_nil, hdecK1, hdecK2, hdecV2, hdecD]
    rw [List.find?_cons_of_pos _ (by simp)]
    rfl
  · unfold getUrlParam getParamList
    have hne : (("offset".data, intToDecimalChars off).1 == "limit".data) = false := by
      show ("offset".data == "limit".data) = false
      decide
    rw [hq, hkv]
    simp only [List.map_cons, List.map_nil, hdecK1, hdecK2, hdecV2, hdecD]
    rw [List.find?_cons_of_neg _ (by simp [hne]),
      List.find?_cons_of_pos _ (by simp)]
    rfl

/-! ### Claim C10 — the page-1 reset -/

/-- C10: whenever the paginated-list component renders with `currentPage`
equal to 1, the address bar is replaced by `/` — a URL carrying no query
parameter at all — and the document title is set to `Pokedex`. -/
theorem c10_page_one_reset (page : Int) (b : Browser) (h : page = 1) :
    (Items.pageOneEffect page b).url = "/" ∧
    (Items.pageOneEffect page b).title = "Pokedex" ∧
    ∀ k : String, getUrlParam (Items.pageOneEffect page b).url k = none := by
  subst h
  exact ⟨rfl, rfl, fun k => rfl⟩

/-- C10 witness: the theorem evaluated on a browser state that carried a
`page` query parameter before the reset. -/
theorem c10_page_one_reset_witness :
    (Items.pageOneEffect 1 { url := "/?page=5", title := "Pokedex | Page 5" }).url = "/" ∧
    getUrlParam (Items.pageOneEffect 1 { url := "/?page=5", title := "Pokedex | Page 5" }).url
      "page" = none :=
  ⟨(c10_page_one_reset 1 { url := "/?page=5", title := "Pokedex | Page 5" } rfl).1,
   (c10_page_one_reset 1 { url := "/?page=5", title := "Pokedex | Page 5" } rfl).2.2 "page"⟩

/-! ### Claim C6 — the sprite fallback -/

/-- C6: for every rendered item, in both card templates, a null/absent
`sprites.front_default` makes the image source the media-endpoint
fallback `/api/media/?l=empty-url.jpg`, and a present field is used as
the image source unchanged. -/
theorem c6_sprite_fallback (p : Pokemon) :
    (p.sprites.front_default = none →
        cardSrc (Items.mkCard p) = some "/api/media/?l=empty-url.jpg" ∧
        cardSrc (ItemsTPL.mkCard p) = some "/api/media/?l=empty-url.jpg") ∧
    (∀ s, p.sprites.front_default = some s →
        cardSrc (Items.mkCard p) = some s ∧
        cardSrc (ItemsTPL.mkCard p) = some s) := by
  constructor
  · intro h
    constructor <;> simp [Items.mkCard, ItemsTPL.mkCard, cardSrc, h]
  · intro s h
    constructor <;> simp [Items.mkCard, ItemsTPL.mkCard, cardSrc, h]

/-- C6 witness: the theorem evaluated on an item without a sprite and on
an item with one. -/
theorem c6_sprite_fallback_witness :
    (cardSrc (Items.mkCard samplePokemonNoSprite) = some "/api/media/?l=empty-url.jpg" ∧
      cardSrc (ItemsTPL.mkCard samplePokemonNoSprite) = some "/api/media/?l=empty-url.jpg") ∧
    (cardSrc (Items.mkCard samplePokemon) = some "https://img.example/1.png" ∧
      cardSrc (ItemsTPL.mkCard samplePokemon) = some "https://img.example/1.png") :=
  ⟨(c6_sprite_fallback samplePokemonNoSprite).1 rfl,
   (c6_sprite_fallback samplePokemon).2 "https://img.example/1.png" rfl⟩

/-! ### Claim C7 — the list view as a function of the request state -/

/-- C7: the list view renders as a function of the request state: while a
request is in flight the loading indicator is shown; if it failed the
error message is shown; with a response, the cards of the output are
exactly one card per returned item, each showing the item's name and its
image source. -/
theorem c7_list_render (iL : Bool) (err : Option ErrObj) (resp : Option Response)
    (page : Int) :
    (iL = true → RenderNode.text "Fetching data..." ∈ Items.render iL err resp page) ∧
    (∀ e, err = some e → RenderNode.text e.message ∈ Items.render iL err resp page) ∧
    (∀ r, resp = some r →
        (Items.render iL err resp page).filter isCardNode
          = r.data.results.map Items.mkCard ∧
        ∀ p ∈ r.data.results,
          cardName (Items.mkCard p) = some p.name ∧
          cardSrc (Items.mkCard p)
            = some (p.sprites.front_default.getD "/api/media/?l=empty-url.jpg")) := by
  refine ⟨?_, ?_, ?_⟩
  · rintro rfl
    simp [Items.render]
  · rintro e rfl
    simp [Items.render]
  · rintro r rfl
    constructor
    · have h1 : ∀ x ∈ r.data.results.map Items.mkCard, isCardNode x = true := by
        intro x hx
        obtain ⟨p, hp, rfl⟩ := List.mem_map.mp hx
        rfl
      have hA : (if iL then [RenderNode.text "Fetching data..."] else []).filter isCardNode
          = [] := by
        cases iL <;> rfl
      have hB : ((match err with
          | some e => [RenderNode.text e.message]
          | none => []) : List RenderNode).filter isCardNode = [] := by
        rcases err with _ | e <;> rfl
      have hD : ((if r.data.count ≠ 0 then
          [RenderNode.pagination page (Items.totalPages r.data.count)]
          else []) : List RenderNode).filter isCardNode = [] := by
        by_cases h : r.data.count ≠ 0 <;> simp [h, isCardNode]
      simp only [Items.render, List.filter_append, hA, hB, hD,
        List.filter_eq_self.mpr h1, List.nil_append, List.append_nil]
    · intro p hp
      exact ⟨rfl, rfl⟩

/-- C7 witness: the theorem evaluated on a state that is loading, failed
and carries a one-item response at the same time. -/
theorem c7_list_render_witness :
    RenderNode.text "Fetching data..."
      ∈ Items.render true (some sampleErr) (some sampleResp) 1 ∧
    RenderNode.text sampleErr.message
      ∈ Items.render true (some sampleErr) (some sampleResp) 1 ∧
    (Items.render true (some sampleErr) (some sampleResp) 1).filter isCardNode
      = sampleResp.data.results.map Items.mkCard :=
  ⟨(c7_list_render true (some sampleErr) (some sampleResp) 1).1 rfl,
   (c7_list_render true (some sampleErr) (some sampleResp) 1).2.1 sampleErr rfl,
   ((c7_list_render true (some sampleErr) (some sampleResp) 1).2.2 sampleResp rfl).1⟩

/-! ### Claim C8 — the search submission logic -/

/-- C8: submitting the search form stores the lowercased input as the
query (hence every `q` ever sent is lowercased); when the lowercased
value equals the stored query the state does not change, so no new
request is triggered; an empty input resets the query to `null`, for
which the fetch is disabled. -/
theorem c8_search_submit (s : SearchForm.State) :
    (∀ v, s.input = some v → v ≠ "" → s.query ≠ some (jsToLowerCase v) →
        (SearchForm.handleSearchClick s).query = some (jsToLowerCase v)) ∧
    (∀ v, s.input = some v → v ≠ "" → s.query = some (jsToLowerCase v) →
        SearchForm.handleSearchClick s = s) ∧
    ((s.input = none ∨ s.input = some "") →
        (SearchForm.handleSearchClick s).query = none ∧
        (SearchForm.queryOptions (SearchForm.handleSearchClick s).query).enabled = false) := by
  refine ⟨?_, ?_, ?_⟩
  · intro v hv hne hq
    simp [SearchForm.handleSearchClick, hv, hne, hq]
  · intro v hv hne hq
    simp [SearchForm.handleSearchClick, hv, hne, hq]
  · rintro (h | h) <;>
      simp [SearchForm.handleSearchClick, h, SearchForm.queryOptions,
        SearchForm.queryEnabled]

/-- C8 witness: the theorem evaluated on concrete form states: a new
mixed-case input, a repeat of the stored query, and a cleared field. -/
theorem c8_search_submit_witness :
    (SearchForm.handleSearchClick { input := some "Pika", query := none }).query
      = some (jsToLowerCase "Pika") ∧
    SearchForm.handleSearchClick { input := some "Pika", query := some "pika" }
      = { input := some "Pika", query := some "pika" } ∧
    (SearchForm.handleSearchClick { input := some "", query := some "pika" }).query
      = none :=
  ⟨(c8_search_submit { input := some "Pika", query := none }).1 "Pika" rfl
      (by decide) (by decide),
   (c8_search_submit { input := some "Pika", query := some "pika" }).2.1 "Pika" rfl
      (by decide) (by decide),
   ((c8_search_submit { input := some "", query := some "pika" }).2.2
      (Or.inr rfl)).1⟩

/-! ### Claim C9 — the three-way results area -/

/-- C9: the results area renders exactly one of three contents: the text
`Nothing was found` when search data is present with count 0, the
search-results component when search data is present with positive count,
and the paginated list when no search data is present; the three
conditions are exhaustive and mutually exclusive, so the list and the
search results are never shown together. -/
theorem c9_result_area (fd : Option Response) (iL : Bool) (ie : Option ErrObj)
    (ir : Option Response) (ip cp : Int) :
    (fd = none →
        App.resultNodes fd iL ie ir ip cp = Items.render iL ie ir ip) ∧
    (∀ d, fd = some d → d.data.count = 0 →
        App.resultNodes fd iL ie ir ip cp = [RenderNode.text "Nothing was found"]) ∧
    (∀ d, fd = some d → 0 < d.data.count →
        App.resultNodes fd iL ie ir ip cp = FoundItems.render d App.itemsPerPage cp) ∧
    (fd = none ∨ (∃ d, fd = some d ∧ d.data.count = 0) ∨
        (∃ d, fd = some d ∧ 0 < d.data.count)) := by
  refine ⟨?_, ?_, ?_, ?_⟩
  · rintro rfl
    rfl
  · rintro d rfl h
    simp [App.resultNodes, h]
  · rintro d rfl h
    simp [App.resultNodes, Nat.pos_iff_ne_zero.mp h]
  · rcases fd with _ | d
    · exact Or.inl rfl
    · rcases Nat.eq_zero_or_pos d.data.count with h | h
      · exact Or.inr (Or.inl ⟨d, rfl, h⟩)
      · exact Or.inr (Or.inr ⟨d, rfl, h⟩)

/-- C9 witness: the theorem evaluated on the three concrete cases. -/
theorem c9_result_area_witness :
    App.resultNodes none false none none 1 1 = Items.render false none none 1 ∧
    App.resultNodes (some { data := { count := 0, results := [] } }) false none none 1 1
      = [RenderNode.text "Nothing was found"] ∧
    App.resultNodes (some sampleResp) false none none 1 1
      = FoundItems.render sampleResp App.itemsPerPage 1 :=
  ⟨(c9_result_area none false none none 1 1).1 rfl,
   (c9_result_area (some { data := { count := 0, results := [] } })
      false none none 1 1).2.1 { data := { count := 0, results := [] } } rfl rfl,
   (c9_result_area (some sampleResp) false none none 1 1).2.2.1 sampleResp rfl
      (by decide)⟩

/-! ### Claim C3 — error handling -/

/-- C3 counterexample: a concrete failed search request after which the
claimed inline error message appears nowhere in the rendered output. The
effect clears the stored search data, the search form markup carries no
error node, and the list view shown instead knows nothing of the search
failure. -/
theorem c3_counterexample :
    SearchForm.effectFoundData false (some sampleErr) none (some sampleResp) = none ∧
    RenderNode.text sampleErr.message ∉
      App.render false (some sampleErr) none
        (SearchForm.effectFoundData false (some sampleErr) none (some sampleResp))
        false none (some sampleResp) 1 1 := by
  constructor
  · decide
  · decide

/-- C3 (amended): a failed list-page fetch renders its error message
inline and both queries are configured with `retry: false`; a failed
search fetch, however, renders no error message — the search form output
is the same constant for every request state, and the effect resets the
stored search data to `null`, so the paginated list is shown instead. -/
theorem c3_error_handling :
    (∀ (e : ErrObj) (iL : Bool) (resp : Option Response) (page : Int),
        RenderNode.text e.message ∈ Items.render iL (some e) resp page) ∧
    Items.queryOptions.retry = false ∧
    (∀ q, (SearchForm.queryOptions q).retry = false) ∧
    (∀ (iL : Bool) (e : ErrObj) (resp : Option Response),
        SearchForm.render iL (some e) resp = [RenderNode.searchFormUI]) ∧
    (∀ (e : ErrObj) (prev : Option Response),
        SearchForm.effectFoundData false (some e) none prev = none) := by
  refine ⟨?_, rfl, fun q => rfl, fun iL e resp => rfl, ?_⟩
  · intro e iL resp page
    cases iL <;> rcases resp with _ | r <;> simp [Items.render]
  · intro e prev
    simp [SearchForm.effectFoundData]

/-! ### Claim C5 — the search-request URL -/

/-- C5 counterexample: the query is interpolated into the URL without
URL-encoding, so the `q` query parameter of the wire request differs from
the submitted query whenever the query contains a URL metacharacter: `&`
truncates it, `#` turns the rest of the URL into a fragment that is never
sent (also dropping `offset` and `limit`), and `+` and `%hh` sequences
are decoded to different text by the receiver. -/
theorem c5_counterexample :
    (getUrlParam (SearchForm.requestUrl "a&b" 0 App.itemsPerPage) "q" = some "a" ∧
      (some "a" : Option String) ≠ some "a&b") ∧
    (getUrlParam (SearchForm.requestUrl "a#b" 0 App.itemsPerPage) "q" = some "a" ∧
      getUrlParam (SearchForm.requestUrl "a#b" 0 App.itemsPerPage) "offset" = none ∧
      getUrlParam (SearchForm.requestUrl "a#b" 0 App.itemsPerPage) "limit" = none) ∧
    (getUrlParam (SearchForm.requestUrl "a+b" 0 App.itemsPerPage) "q" = some "a b" ∧
      (some "a b" : Option String) ≠ some "a+b") ∧
    (getUrlParam (SearchForm.requestUrl "a%26b" 0 App.itemsPerPage) "q" = some "a&b" ∧
      (some "a&b" : Option String) ≠ some "a%26b") := by
  refine ⟨⟨by decide, by decide⟩, ⟨by decide, by decide, by decide⟩,
    ⟨by decide, by decide⟩, ⟨by decide, by decide⟩⟩

/-- C5 (amended): every search request is a GET to `/api/search/pokemon/`
whose `q` query parameter is the submitted search query — provided the
query contains none of the characters `&`, `#`, `+`, `%`, since the code
does not URL-encode it — whose `offset` query parameter is the current
offset and whose `limit` query parameter is `18`. -/
theorem c5_search_request (q : String) (off : Int)
    (hq : ∀ c ∈ q.data, c ≠ '&' ∧ c ≠ '#' ∧ c ≠ '+' ∧ c ≠ '%') :
    urlPathString (SearchForm.requestUrl q off App.itemsPerPage) = "/api/search/pokemon/" ∧
    getUrlParam (SearchForm.requestUrl q off App.itemsPerPage) "q" = some q ∧
    getUrlParam (SearchForm.requestUrl q off App.itemsPerPage) "offset"
      = some (intToDecimal off) ∧
    getUrlParam (SearchForm.requestUrl q off App.itemsPerPage) "limit" = some "18" ∧
    parseIntJS (intToDecimal off) = some off := by
  have hdata : (SearchForm.requestUrl q off App.itemsPerPage).data
      = "/api/search/pokemon/".data ++ '?' ::
          ("q".data ++ '=' ::
            (q.data ++ '&' ::
              ("offset".data ++ '=' ::
                (intToDecimalChars off ++ '&' ::
                  ("limit".data ++ '=' :: "18".data))))) := by
    show SearchForm.requestChars q off App.itemsPerPage = _
    unfold SearchForm.requestChars
    have e1 : "/api/search/pokemon/?q=".data
        = "/api/search/pokemon/".data ++ '?' :: ("q".data ++ ['=']) := by decide
    have e2 : "&offset=".data = '&' :: ("offset".data ++ ['=']) := by decide
    have e3 : "&limit=".data = '&' :: ("limit".data ++ ['=']) := by decide
    have e4 : natToDecimal App.itemsPerPage = "18".data := by decide
    rw [e1, e2, e3, e4]
    simp
  have hP : ∀ c ∈ "/api/search/pokemon/".data, c ≠ '?' ∧ c ≠ '#' := by decide
  have hD : ∀ c ∈ intToDecimalChars off, c ≠ '&' :=
    fun c hc => (intToDecimalChars_facts off c hc).1
  have hQ5 : ∀ c ∈ ("q".data ++ '=' ::
      (q.data ++ '&' ::
        ("offset".data ++ '=' ::
          (intToDecimalChars off ++ '&' ::
            ("limit".data ++ '=' :: "18".data))))), c ≠ '#' := by
    intro c hc
    rcases List.mem_append.mp hc with h1 | h2
    · exact (by decide : ∀ x ∈ "q".data, x ≠ '#') c h1
    · rcases List.mem_cons.mp h2 with rfl | h3
      · decide
      · rcases List.mem_append.mp h3 with h4 | h5
        · exact (hq c h4).2.1
        · rcases List.mem_cons.mp h5 with rfl | h6
          · decide
          · rcases List.mem_append.mp h6 with h7 | h8
            · exact (by decide : ∀ x ∈ "offset".data, x ≠ '#') c h7
            · rcases List.mem_cons.mp h8 with rfl | h9
              · decide
              · rcases List.mem_append.mp h9 with h10 | h11
                · exact (intToDecimalChars_facts2 off c h10).1
                · rcases List.mem_cons.mp h11 with rfl | h12
                  · decide
                  · exact (by decide :
                      ∀ x ∈ "limit".data ++ '=' :: "18".data, x ≠ '#') c h12
  have hquery : urlQueryChars (SearchForm.requestUrl q off App.itemsPerPage).data
      = "q".data ++ '=' ::
          (q.data ++ '&' ::
            ("offset".data ++ '=' ::
              (intToDecimalChars off ++ '&' ::
                ("limit".data ++ '=' :: "18".data)))) := by
    rw [hdata]
    exact urlQueryChars_append _ _ hP hQ5
  have hkv := query_three_kv "q".data q.data "offset".data (intToDecimalChars off)
    "limit".data "18".data (by decide) (fun c hc => (hq c hc).1) (by decide) hD
    (by decide) (by decide)
  have hdecKq : formUrlDecode "q".data = "q".data := by decide
  have hdecKoff : formUrlDecode "offset".data = "offset".data := by decide
  have hdecKlim : formUrlDecode "limit".data = "limit".data := by decide
  have hdecV18 : formUrlDecode "18".data = "18".data := by decide
  have hdecD : formUrlDecode (intToDecimalChars off) = intToDecimalChars off :=
    formUrlDecode_clean _ (fun c hc =>
      ⟨(intToDecimalChars_facts2 off c hc).2.1, (intToDecimalChars_facts2 off c hc).2.2⟩)
  have hdecq : formUrlDecode q.data = q.data :=
    formUrlDecode_clean _ (fun c hc => ⟨(hq c hc).2.2.2, (hq c hc).2.2.1⟩)
  have hqoff : (("q".data, q.data).1 == "offset".data) = false := by
    show ("q".data == "offset".data) = false
    decide
  have hqlim : (("q".data, q.data).1 == "limit".data) = false := by
    show ("q".data == "limit".data) = false
    decide
  have hofflim : (("offset".data, intToDecimalChars off).1 == "limit".data) = false := by
    show ("offset".data == "limit".data) = false
    decide
  refine ⟨?_, ?_, ?_, ?_, parseIntJS_intToDecimal off⟩
  · unfold urlPathString
    rw [hdata, urlPathChars_append _ _ hP]
  · unfold getUrlParam getParamList
    rw [hquery, hkv]
    simp only [List.map_cons, List.map_nil, hdecKq, hdecKoff, hdecKlim, hdecV18,
      hdecD, hdecq]
    rw [List.find?_cons_of_pos _ (by simp)]
    cases q
    rfl
  · unfold getUrlParam getParamList
    rw [hquery, hkv]
    simp only [List.map_cons, List.map_nil, hdecKq, hdecKoff, hdecKlim, hdecV18,
      hdecD, hdecq]
    rw [List.find?_cons_of_neg _ (by simp [hqoff]),
      List.find?_cons_of_pos _ (by simp)]
    rfl
  · unfold getUrlParam getParamList
    rw [hquery, hkv]
    simp only [List.map_cons, List.map_nil, hdecKq, hdecKoff, hdecKlim, hdecV18,
      hdecD, hdecq]
    rw [List.find?_cons_of_neg _ (by simp [hqlim]),
      List.find?_cons_of_neg _ (by simp [hofflim]),
      List.find?_cons_of_pos _ (by simp)]
    rfl

/-- C5 witness: the amended theorem evaluated at the query `pikachu` and
offset 0. -/
theorem c5_search_request_witness :
    urlPathString (SearchForm.requestUrl "pikachu" 0 App.itemsPerPage)
      = "/api/search/pokemon/" ∧
    getUrlParam (SearchForm.requestUrl "pikachu" 0 App.itemsPerPage) "q"
      = some "pikachu" ∧
    getUrlParam (SearchForm.requestUrl "pikachu" 0 App.itemsPerPage) "limit"
      = some "18" :=
  ⟨(c5_search_request "pikachu" 0 (by decide)).1,
   (c5_search_request "pikachu" 0 (by decide)).2.1,
   (c5_search_request "pikachu" 0 (by decide)).2.2.2.1⟩

/-! ### Claim C2 — deep linking and the first catalog request -/

/-- C2 (code evaluation): opening `/?page=3` makes App parse page 3 and
offset 36, but App sets no `openedPage` attribute on the `Items` element,
so the component initialises itself at page 1 / offset 0 and the first
catalog request carries `offset=0` — indeed it carries `offset=0` for
every conceivable location search, so the address-bar parameters never
determine the first catalog request. -/
theorem c2_deep_link_first_request :
    (App.init "?page=3").currentPage = some 3 ∧
    (App.init "?page=3").currentOffset = some 36 ∧
    App.firstListRequest "?page=3" = some "/api/pokemon-detailed/?offset=0&limit=18" ∧
    ∀ qs : String,
      App.firstListRequest qs = some "/api/pokemon-detailed/?offset=0&limit=18" := by
  refine ⟨by decide, by decide, by decide, ?_⟩
  intro qs
  rfl

end PokeProject
